import Mathlib

/-!
Verification development for the whatsapp-bridge relay program.

The Go sources are shallowly embedded as pure Lean functions:
SQLite tables become lists of rows, the SQL statements become the
corresponding list transformations, HTTP and filesystem outcomes become
explicit parameters, and each Go function that the claims mention is
translated into a Lean definition of the same name.
-/

/-- Timestamps are modelled as epoch seconds (time.Time values only flow
through the program; they are never computed with). -/
abbrev DBTime := Nat

/-- A whatsmeow JID: local user part plus server part. -/
structure JID where
  user : String
  server : String
deriving Repr, DecidableEq

/-- Rendering of types.JID.String() as used for chat keys in the store:
user at server. -/
def jidToString (j : JID) : String := j.user ++ "@" ++ j.server

/-- One row of the chats table: jid TEXT PRIMARY KEY, name TEXT,
last_message_time TIMESTAMP. -/
structure ChatRow where
  jid : String
  name : String
  lastMessageTime : DBTime
deriving Repr, DecidableEq

/-- One row of the messages table: PRIMARY KEY (id, chat_jid). -/
structure MessageRow where
  id : String
  chatJid : String
  sender : String
  content : String
  timestamp : DBTime
  isFromMe : Bool
deriving Repr, DecidableEq

/-- The state of the messages.db SQLite database created by
NewMessageStore: a chats table and a messages table. -/
structure StoreState where
  chats : List ChatRow
  messages : List MessageRow
deriving Repr, DecidableEq

/-- The empty database, as created by NewMessageStore on first run. -/
def emptyStore : StoreState := ⟨[], []⟩

/-- Primary-key match for the messages table: (id, chat_jid). -/
def msgKeyMatch (id chatJID : String) (r : MessageRow) : Bool :=
  r.id == id && r.chatJid == chatJID

/-- MessageStore.StoreChat: INSERT OR REPLACE INTO chats keyed by jid.
The dbOk flag models whether the storage engine accepts the write
(db.Exec error or not); on engine failure the statement has no effect
and the error is returned (false). -/
def StoreChat (st : StoreState) (jid name : String) (lastMessageTime : DBTime)
    (dbOk : Bool) : StoreState × Bool :=
  if dbOk then
    ({ st with chats :=
        st.chats.filter (fun r => !(r.jid == jid)) ++
          [⟨jid, name, lastMessageTime⟩] }, true)
  else (st, false)

/-- MessageStore.StoreMessage: returns nil immediately when content is
empty (the row is not touched), otherwise INSERT OR REPLACE INTO messages
keyed by (id, chat_jid). The dbOk flag models the storage engine outcome
of db.Exec, which is only reached in the non-empty case. -/
def StoreMessage (st : StoreState) (id chatJID sender content : String)
    (timestamp : DBTime) (isFromMe : Bool) (dbOk : Bool) : StoreState × Bool :=
  if content = "" then (st, true)
  else if dbOk then
    ({ st with messages :=
        st.messages.filter (fun r => !(msgKeyMatch id chatJID r)) ++
          [⟨id, chatJID, sender, content, timestamp, isFromMe⟩] }, true)
  else (st, false)

/-- Claim C3: for every pair (id, chatId) and any two upserts with that
key and non-empty contents, the store afterwards holds exactly one
Message row for that key and its content is the content of the later
call (idempotent replace, no duplicate rows). -/
theorem storeMessage_idempotent_replace (st : StoreState)
    (id chatJID s1 c1 s2 c2 : String) (t1 t2 : DBTime) (f1 f2 : Bool)
    (h1 : c1 ≠ "") (h2 : c2 ≠ "") :
    ((StoreMessage (StoreMessage st id chatJID s1 c1 t1 f1 true).1
        id chatJID s2 c2 t2 f2 true).1.messages.filter
          (msgKeyMatch id chatJID)) =
      [⟨id, chatJID, s2, c2, t2, f2⟩] := by
  simp only [StoreMessage, if_neg h1, if_neg h2, if_pos trivial, if_true]
  simp [List.filter_append, List.filter_filter, msgKeyMatch]

/-- Witness for C3: two concrete upserts with the same key leave exactly
one row, holding the second content. -/
theorem storeMessage_idempotent_replace_witness :
    ("a" : String) ≠ "" ∧ ("b" : String) ≠ "" ∧
    ((StoreMessage (StoreMessage emptyStore "m1" "c1" "s" "a" 1 false true).1
        "m1" "c1" "s" "b" 2 true true).1.messages.filter
          (msgKeyMatch "m1" "c1")) = [⟨"m1", "c1", "s", "b", 2, true⟩] :=
  ⟨by decide, by decide,
    storeMessage_idempotent_replace emptyStore "m1" "c1" "s" "a" "s" "b" 1 2
      false true (by decide) (by decide)⟩

/-- Claim C4: upserting a Message with empty content leaves the store
completely unchanged and reports success, for every starting state and
every storage-engine outcome (the database is never touched). -/
theorem storeMessage_empty_content_noop (st : StoreState)
    (id chatJID sender : String) (t : DBTime) (f : Bool) (dbOk : Bool) :
    StoreMessage st id chatJID sender "" t f dbOk = (st, true) := by
  simp [StoreMessage]

/-- The extended text (quoted/reply) sub-message of a waProto.Message.
The Text field is an optional proto string; GetText returns the empty
string when it is absent. -/
structure ExtendedTextMessage where
  text : Option String
deriving Repr, DecidableEq

/-- Media sub-message (ImageMessage / DocumentMessage); only the optional
Caption field is read by the bridge. -/
structure MediaMessage where
  caption : Option String
deriving Repr, DecidableEq

/-- The parts of a waProto.Message the bridge reads. Conversation is an
optional proto string; the sub-messages are optional pointers. -/
structure WAMessage where
  conversation : Option String
  extendedTextMessage : Option ExtendedTextMessage
  imageMessage : Option MediaMessage
  documentMessage : Option MediaMessage
deriving Repr, DecidableEq

/-- Generated nil-safe proto getter GetConversation: empty string when the
message pointer or the field is absent. -/
def getConversation : Option WAMessage → String
  | none => ""
  | some m => m.conversation.getD ""

/-- Generated nil-safe proto getter GetExtendedTextMessage. -/
def getExtendedTextMessage : Option WAMessage → Option ExtendedTextMessage
  | none => none
  | some m => m.extendedTextMessage

/-- Generated nil-safe proto getter ExtendedTextMessage.GetText. -/
def getText (e : ExtendedTextMessage) : String := e.text.getD ""

/-- extractTextContent from main.go: nil guard, then prefer the plain
Conversation string, else the ExtendedTextMessage text when that
sub-message is present, else empty. -/
def extractTextContent (msg : Option WAMessage) : String :=
  match msg with
  | none => ""
  | some m =>
    if getConversation (some m) ≠ "" then getConversation (some m)
    else
      match getExtendedTextMessage (some m) with
      | some ext => getText ext
      | none => ""

/-- Claim C7: text extraction returns the plain conversation string when
non-empty; otherwise the text of the extended-text field when present;
otherwise the empty string. -/
theorem extractTextContent_cases (m : WAMessage) :
    (getConversation (some m) ≠ "" →
      extractTextContent (some m) = getConversation (some m)) ∧
    (getConversation (some m) = "" →
      ∀ ext, m.extendedTextMessage = some ext →
        extractTextContent (some m) = getText ext) ∧
    (getConversation (some m) = "" → m.extendedTextMessage = none →
      extractTextContent (some m) = "") := by
  refine ⟨fun h => ?_, fun h ext hext => ?_, fun h hnone => ?_⟩
  · simp [extractTextContent, h]
  · simp [extractTextContent, getExtendedTextMessage, h, hext]
  · simp [extractTextContent, getExtendedTextMessage, h, hnone]

/-- Witness for C7: a message with no conversation string and a quoted
text field yields the quoted text. -/
theorem extractTextContent_cases_witness :
    extractTextContent (some ⟨none, some ⟨some "quoted"⟩, none, none⟩) =
      getText ⟨some "quoted"⟩ :=
  (extractTextContent_cases ⟨none, some ⟨some "quoted"⟩, none, none⟩).2.1
    (by decide) ⟨some "quoted"⟩ rfl

/-- Claim C10: text extraction is total: a nil message pointer yields the
empty string, and a message with neither a conversation string nor an
extended-text field yields the empty string. -/
theorem extractTextContent_total :
    extractTextContent none = "" ∧
    ∀ m : WAMessage, getConversation (some m) = "" →
      m.extendedTextMessage = none → extractTextContent (some m) = "" := by
  refine ⟨rfl, fun m h hnone => ?_⟩
  simp [extractTextContent, getExtendedTextMessage, h, hnone]

/-- Witness for C10: a media-only message with no text fields at all
extracts to the empty string. -/
theorem extractTextContent_total_witness :
    extractTextContent (some ⟨none, none, some ⟨some "pic"⟩, none⟩) = "" :=
  extractTextContent_total.2 ⟨none, none, some ⟨some "pic"⟩, none⟩
    (by decide) rfl

/-- Comparison realising the ORDER BY last_message_time DESC clause of
GetChats: row a may precede row b when the time of b is not newer. -/
def chatOrder (a b : ChatRow) : Prop := b.lastMessageTime ≤ a.lastMessageTime

instance : DecidableRel chatOrder := fun a b =>
  inferInstanceAs (Decidable (b.lastMessageTime ≤ a.lastMessageTime))

/-- Row sequence produced by the SQL query of MessageStore.GetChats:
SELECT jid, last_message_time FROM chats ORDER BY last_message_time DESC. -/
def chatsQueryRows (st : StoreState) : List ChatRow :=
  List.insertionSort chatOrder st.chats

/-- Assignment chats[jid] = t into a Go map, represented as an
association list: overwrite the existing key or add a new entry. -/
def goMapInsert (m : List (String × DBTime)) (k : String) (v : DBTime) :
    List (String × DBTime) :=
  if m.any (fun p => p.1 == k) then
    m.map (fun p => if p.1 == k then (k, v) else p)
  else m ++ [(k, v)]

/-- The association list built by the row-scanning loop of GetChats. -/
def chatsMapList (st : StoreState) : List (String × DBTime) :=
  (chatsQueryRows st).foldl (fun m r => goMapInsert m r.jid r.lastMessageTime) []

/-- MessageStore.GetChats returns a Go map (map from string to time.Time),
whose iteration order is unspecified: the observable value is the
multiset of key-value pairs. -/
def GetChats (st : StoreState) : Multiset (String × DBTime) :=
  (chatsMapList st : Multiset (String × DBTime))

/-- Decides whether a key-time sequence is ordered newest first. -/
def timesDesc : List (String × DBTime) → Bool
  | [] => true
  | [_] => true
  | a :: b :: rest => decide (b.2 ≤ a.2) && timesDesc (b :: rest)

/-- A store with two chats whose last-message times differ. -/
def exOrderStore : StoreState := ⟨[⟨"a@s", "A", 1⟩, ⟨"b@s", "B", 2⟩], []⟩

/-- Counterexample to claim C5 as stated: GetChats returns an unordered
map, so not every enumeration of its entries is sorted by
last-message-time descending; the ascending enumeration of a two-chat
store is a valid enumeration that is not sorted. -/
theorem getChats_unordered_cex :
    ¬ (∀ (st : StoreState) (l : List (String × DBTime)),
        (l : Multiset (String × DBTime)) = GetChats st → timesDesc l = true) := by
  intro h
  have hx := h exOrderStore [("a@s", 1), ("b@s", 2)] (by decide)
  simp [timesDesc] at hx

/-- Helper: folding Go-map insertions of rows with pairwise-distinct keys,
none of which is already present, appends the rows in order. -/
theorem goMapInsert_foldl_nodup (rows : List ChatRow)
    (acc : List (String × DBTime))
    (h : (acc.map Prod.fst ++ rows.map ChatRow.jid).Nodup) :
    rows.foldl (fun m r => goMapInsert m r.jid r.lastMessageTime) acc =
      acc ++ rows.map (fun r => (r.jid, r.lastMessageTime)) := by
  induction rows generalizing acc with
  | nil => simp
  | cons r rs ih =>
    have hnotin : r.jid ∉ acc.map Prod.fst := fun hmem =>
      (List.nodup_append.mp h).2.2 hmem (by simp)
    have hany : acc.any (fun p => p.1 == r.jid) = false := by
      rw [List.any_eq_false]
      intro p hp
      simp only [beq_iff_eq]
      intro hk
      exact hnotin (hk ▸ List.mem_map_of_mem Prod.fst hp)
    have hstep : goMapInsert acc r.jid r.lastMessageTime =
        acc ++ [(r.jid, r.lastMessageTime)] := by
      simp [goMapInsert, hany]
    rw [List.foldl_cons, hstep, ih]
    · simp
    · simpa [List.append_assoc] using h

/-- Claim C5 amended: the SQL query underlying GetChats enumerates all
stored chats sorted by last-message-time descending, but GetChats returns
them in a Go map keyed by jid, which is unordered; so the returned value
is exactly the unordered collection of (jid, last-message-time) pairs of
the stored chats. -/
theorem getChats_amended (st : StoreState)
    (h : (st.chats.map ChatRow.jid).Nodup) :
    List.Sorted chatOrder (chatsQueryRows st) ∧
    List.Perm (chatsQueryRows st) st.chats ∧
    GetChats st = ↑(st.chats.map fun r => (r.jid, r.lastMessageTime)) := by
  have hperm : List.Perm (chatsQueryRows st) st.chats :=
    List.perm_insertionSort chatOrder st.chats
  have hsorted : List.Sorted chatOrder (chatsQueryRows st) := by
    haveI : IsTotal ChatRow chatOrder := ⟨fun a b => Nat.le_total _ _⟩
    haveI : IsTrans ChatRow chatOrder := ⟨fun a b c hab hbc => le_trans hbc hab⟩
    exact List.sorted_insertionSort chatOrder st.chats
  refine ⟨hsorted, hperm, ?_⟩
  have hkeys : ((chatsQueryRows st).map ChatRow.jid).Nodup :=
    ((hperm.map ChatRow.jid).nodup_iff).mpr h
  have hfold : chatsMapList st =
      (chatsQueryRows st).map (fun r => (r.jid, r.lastMessageTime)) := by
    have hg := goMapInsert_foldl_nodup (chatsQueryRows st) [] (by simpa using hkeys)
    simpa [chatsMapList] using hg
  show (chatsMapList st : Multiset (String × DBTime)) = _
  rw [hfold]
  exact Multiset.coe_eq_coe.mpr (hperm.map _)

/-- Witness for the amended C5 on a concrete two-chat store. -/
theorem getChats_amended_witness :
    (exOrderStore.chats.map ChatRow.jid).Nodup ∧
    (List.Sorted chatOrder (chatsQueryRows exOrderStore) ∧
      List.Perm (chatsQueryRows exOrderStore) exOrderStore.chats ∧
      GetChats exOrderStore =
        ↑(exOrderStore.chats.map fun r => (r.jid, r.lastMessageTime))) :=
  ⟨by decide, getChats_amended exOrderStore (by decide)⟩

/-- Result of godotenv.Load plus the BEARER_TOKEN value read from the
environment (the empty string when the variable is unset). -/
structure DotEnv where
  loadOk : Bool
  bearerToken : String
deriving Repr, DecidableEq

/-- Outcome of an HTTP round trip: a transport error from client.Do, or a
completed response with its status code. -/
inductive HTTPOutcome where
  | transportError
  | response (status : Nat)
deriving Repr, DecidableEq

/-- Outcome of one forwarder call: log.Fatal terminates the process,
failure is an error returned to the caller, success is a nil error. -/
inductive CallOutcome where
  | fatal
  | failure (msg : String)
  | success
deriving Repr, DecidableEq

/-- logMessage from main.go: loads .env and reads BEARER_TOKEN inside the
call (log.Fatal on either problem), builds the multipart POST, and
returns the transport error if client.Do fails; the response status code
is never inspected. Building the request against the constant endpoint
cannot fail and is not modelled. -/
def logMessage (env : DotEnv) (post : HTTPOutcome) : CallOutcome :=
  if !env.loadOk then .fatal
  else if env.bearerToken = "" then .fatal
  else
    match post with
    | .transportError => .failure "error sending log"
    | .response _ => .success

/-- LogMessage from the logfunction package (variant with admin_phone,
wa_message_id and wa_parent_message_id fields): configuration problems
are returned as errors, and a completed POST with a status other than
200 is returned as an error. The admin/id fields only populate form
fields and are omitted from the model. -/
def LogMessage (env : DotEnv) (post : HTTPOutcome) : CallOutcome :=
  if !env.loadOk then .failure "error loading .env file"
  else if env.bearerToken = "" then .failure "BEARER_TOKEN not set in .env file"
  else
    match post with
    | .transportError => .failure "error sending log"
    | .response s =>
      if s ≠ 200 then .failure "error response from log API" else .success

/-- LogImageMessage from the logfunction package: log.Fatal on
configuration problems, error when the local file cannot be opened, and
success for any completed POST; the response status code is never
inspected. -/
def LogImageMessage (env : DotEnv) (fileOk : Bool) (post : HTTPOutcome) :
    CallOutcome :=
  if !env.loadOk then .fatal
  else if env.bearerToken = "" then .fatal
  else if !fileOk then .failure "error opening file"
  else
    match post with
    | .transportError => .failure "error sending log"
    | .response _ => .success

/-- Counterexample to claim C2 as stated: the logMessage forwarder of the
bridge returns success for a completed POST with status 500, although
500 is not 200. -/
theorem forwarder_success_iff_200_cex :
    logMessage ⟨true, "token"⟩ (HTTPOutcome.response 500) =
      CallOutcome.success ∧ (500 : Nat) ≠ 200 :=
  ⟨rfl, by decide⟩

/-- Claim C2 amended: with usable configuration, the logfunction
LogMessage forwarder succeeds exactly on a completed POST with status
200, while the bridge forwarder logMessage and the logfunction
LogImageMessage forwarder succeed on every completed POST regardless of
status code; in all three, a transport error is a delivery failure. -/
theorem forwarder_success_amended (env : DotEnv) (post : HTTPOutcome)
    (fileOk : Bool) (hload : env.loadOk = true) (htok : env.bearerToken ≠ "") :
    (LogMessage env post = CallOutcome.success ↔
      post = HTTPOutcome.response 200) ∧
    (logMessage env post = CallOutcome.success ↔
      post ≠ HTTPOutcome.transportError) ∧
    (fileOk = true →
      (LogImageMessage env fileOk post = CallOutcome.success ↔
        post ≠ HTTPOutcome.transportError)) := by
  refine ⟨?_, ?_, fun hf => ?_⟩ <;>
    cases post <;>
      simp [LogMessage, logMessage, LogImageMessage, hload, htok, *]

/-- Witness for the amended C2 at a concrete configuration and a
completed 200 response. -/
theorem forwarder_success_amended_witness :
    (true : Bool) = true ∧ ("token" : String) ≠ "" ∧
    ((LogMessage ⟨true, "token"⟩ (HTTPOutcome.response 200) =
        CallOutcome.success ↔
        HTTPOutcome.response 200 = HTTPOutcome.response 200) ∧
      (logMessage ⟨true, "token"⟩ (HTTPOutcome.response 200) =
        CallOutcome.success ↔
        HTTPOutcome.response 200 ≠ HTTPOutcome.transportError) ∧
      (true = true →
        (LogImageMessage ⟨true, "token"⟩ true (HTTPOutcome.response 200) =
            CallOutcome.success ↔
          HTTPOutcome.response 200 ≠ HTTPOutcome.transportError))) :=
  ⟨rfl, by decide,
    forwarder_success_amended ⟨true, "token"⟩ (HTTPOutcome.response 200) true
      rfl (by decide)⟩

/-- Outcomes of the fallible steps of main() that precede the serving
state: store-directory creation, session database open, device fetch,
message-store initialisation, connect, and the stable-connection check.
The .env contents are carried alongside; main never loads or reads them
(godotenv.Load runs only inside the forwarders). -/
structure StartupEnv where
  mkdirOk : Bool
  sessionDbOk : Bool
  deviceOk : Bool
  messageStoreOk : Bool
  connectOk : Bool
  stableOk : Bool
  dotenv : DotEnv
deriving Repr, DecidableEq

/-- Whether main() reaches the serving state (event handler installed,
REST server started, waiting on the termination signal): every fallible
startup step must succeed; no step consults the .env contents. -/
def mainStartup (se : StartupEnv) : Bool :=
  se.mkdirOk && se.sessionDbOk && se.deviceOk && se.messageStoreOk &&
    se.connectOk && se.stableOk

/-- Counterexample to claim C8 as stated: with BEARER_TOKEN unset the
process still completes startup and reaches the relay/serving state, and
the missing credential is later surfaced by the logfunction LogMessage
forwarder as a per-message delivery failure. -/
theorem bearer_missing_not_startup_fatal_cex :
    mainStartup ⟨true, true, true, true, true, true, ⟨true, ""⟩⟩ = true ∧
    LogMessage ⟨true, ""⟩ (HTTPOutcome.response 200) =
      CallOutcome.failure "BEARER_TOKEN not set in .env file" :=
  ⟨rfl, rfl⟩

/-- Claim C8 amended: the bearer credential is never checked at startup
(the startup outcome is independent of the .env contents); the check
happens inside each forwarder call: the bridge forwarders abort the
whole process via log.Fatal at the first delivery attempt, and the
logfunction LogMessage forwarder returns the missing credential as a
per-message delivery failure. -/
theorem bearer_checked_inside_forwarders (se : StartupEnv) (d : DotEnv)
    (post : HTTPOutcome) (fileOk : Bool) :
    mainStartup { se with dotenv := d } = mainStartup se ∧
    logMessage ⟨true, ""⟩ post = CallOutcome.fatal ∧
    LogImageMessage ⟨true, ""⟩ fileOk post = CallOutcome.fatal ∧
    LogMessage ⟨true, ""⟩ post =
      CallOutcome.failure "BEARER_TOKEN not set in .env file" :=
  ⟨rfl, rfl, rfl, rfl⟩

/-- Optional DisplayName and Name fields that the reflection walk inside
GetChatName extracts best-effort from the conversation metadata object
supplied during history sync (each is nil when the field is missing, of
the wrong shape, or a nil pointer). -/
structure ConvMeta where
  displayName : Option String
  name : Option String
deriving Repr, DecidableEq

/-- Name taken from the conversation metadata inside GetChatName: the
DisplayName field when present and non-empty, else the Name field when
present and non-empty, else empty. -/
def metaName : Option ConvMeta → String
  | none => ""
  | some m =>
    if m.displayName.getD "" ≠ "" then m.displayName.getD ""
    else if m.name.getD "" ≠ "" then m.name.getD ""
    else ""

/-- Name determination of GetChatName past the store cache check.
groupInfoName models client.GetGroupInfo: none on error, otherwise the
group name; contactFullName models Contacts.GetContact: none on error,
otherwise the FullName. -/
def resolveChatName (jid : JID) (conversation : Option ConvMeta)
    (groupInfoName : Option String) (contactFullName : Option String)
    (sender : String) : String :=
  if jid.server = "g.us" then
    let fromMeta := metaName conversation
    if fromMeta ≠ "" then fromMeta
    else
      match groupInfoName with
      | some gn => if gn ≠ "" then gn else "Group " ++ jid.user
      | none => "Group " ++ jid.user
  else
    match contactFullName with
    | some fn =>
      if fn ≠ "" then fn
      else if sender ≠ "" then sender else jid.user
    | none => if sender ≠ "" then sender else jid.user

/-- GetChatName from main.go: return the cached store name when the row
query succeeded and the name is non-empty (storedName models the query:
none on error or no row), otherwise resolve a fresh name. -/
def GetChatName (storedName : Option String) (jid : JID)
    (conversation : Option ConvMeta) (groupInfoName : Option String)
    (contactFullName : Option String) (sender : String) : String :=
  match storedName with
  | some n =>
    if n ≠ "" then n
    else resolveChatName jid conversation groupInfoName contactFullName sender
  | none => resolveChatName jid conversation groupInfoName contactFullName sender

/-- Claim C6: for a group chat (server g.us) with no cached store name,
no usable conversation metadata, and a failing or empty live group-info
lookup, chat-name resolution yields the synthetic fallback name built
from the local identifier of the group. -/
theorem getChatName_group_fallback (storedName : Option String) (jid : JID)
    (conversation : Option ConvMeta) (groupInfoName : Option String)
    (contactFullName : Option String) (sender : String)
    (hcache : storedName.getD "" = "")
    (hgroup : jid.server = "g.us")
    (hmeta : metaName conversation = "")
    (hgi : groupInfoName.getD "" = "") :
    GetChatName storedName jid conversation groupInfoName contactFullName
      sender = "Group " ++ jid.user := by
  have hres : resolveChatName jid conversation groupInfoName contactFullName
      sender = "Group " ++ jid.user := by
    cases groupInfoName with
    | none => simp [resolveChatName, hgroup, hmeta]
    | some gn =>
      have hgn : gn = "" := by simpa using hgi
      simp [resolveChatName, hgroup, hmeta, hgn]
  cases storedName with
  | none => simpa [GetChatName] using hres
  | some n =>
    have hn : n = "" := by simpa using hcache
    simpa [GetChatName, hn] using hres

/-- Witness for C6: a never-seen group with id 120363 at g.us, no
metadata, and a failing group-info lookup resolves to Group 120363. -/
theorem getChatName_group_fallback_witness :
    GetChatName none ⟨"120363", "g.us"⟩ none none none "" = "Group 120363" :=
  getChatName_group_fallback none ⟨"120363", "g.us"⟩ none none none ""
    rfl rfl rfl rfl

/-- Metadata of a live message event (the Info field of events.Message). -/
structure MessageInfo where
  id : String
  chat : JID
  sender : JID
  timestamp : DBTime
  isFromMe : Bool
deriving Repr, DecidableEq

/-- A live message event delivered to the handler registered in main. -/
structure MessageEvent where
  info : MessageInfo
  message : WAMessage
deriving Repr, DecidableEq

/-- One forwarder invocation issued by the live event handler, with the
arguments it would carry to the logging backend. -/
inductive LogCall where
  | document (sender text recipient : String) (t : DBTime)
  | image (sender text recipient : String) (t : DBTime)
  | text (sender text recipient : String) (t : DBTime)
deriving Repr, DecidableEq

/-- Collaborator outcomes for the live handler: the chat-name resolution
used by handleMessage, and whether the media download-and-save steps
succeed for documents and images. -/
structure LiveEnv where
  resolveName : String → String
  docFetchOk : Bool
  imgFetchOk : Bool

/-- handleMessage from main.go: extract the text content, skip when it is
empty, otherwise resolve the chat name and upsert the chat row and the
message row (store-engine writes assumed healthy; their errors are only
logged and do not alter control flow). -/
def handleMessage (resolveName : String → String) (ev : MessageEvent)
    (st : StoreState) : StoreState :=
  let content := extractTextContent (some ev.message)
  if content = "" then st
  else
    let chatJID := jidToString ev.info.chat
    let sender := ev.info.sender.user
    let name := resolveName chatJID
    let st1 := (StoreChat st chatJID name ev.info.timestamp true).1
    (StoreMessage st1 ev.info.id chatJID sender content ev.info.timestamp
      ev.info.isFromMe true).1

/-- The events.Message arm of the handler registered in main: it first
calls handleMessage (which writes to the store), then applies the status
guard, and only past the guard issues the document, image and text
forwarder calls; a failed media download-and-save returns early and
suppresses the remaining branches. Returns the resulting store and the
list of forwarder calls issued. -/
def onMessageEvent (env : LiveEnv) (ev : MessageEvent) (st : StoreState) :
    StoreState × List LogCall :=
  let st1 := handleMessage env.resolveName ev st
  let sender := ev.info.sender.user
  let recipient := ev.info.chat.user
  let text := getConversation (some ev.message)
  if sender == "status" || recipient == "status" ||
      sender == "status@broadcast" || recipient == "status@broadcast" then
    (st1, [])
  else
    let docStep : Option (List LogCall) :=
      match ev.message.documentMessage with
      | none => some []
      | some d =>
        if env.docFetchOk then
          some [.document sender (d.caption.getD "") recipient
            ev.info.timestamp]
        else none
    match docStep with
    | none => (st1, [])
    | some docLogs =>
      let imgStep : Option (List LogCall) :=
        match ev.message.imageMessage with
        | none => some []
        | some im =>
          if env.imgFetchOk then
            some [.image sender (im.caption.getD "") recipient
              ev.info.timestamp]
          else none
      match imgStep with
      | none => (st1, docLogs)
      | some imgLogs =>
        let txtLogs :=
          if text ≠ "" then
            [LogCall.text sender text recipient ev.info.timestamp]
          else []
        (st1, docLogs ++ imgLogs ++ txtLogs)

/-- A live text message in the status-broadcast conversation: the chat
JID is status at broadcast, so its user part is the synthetic status
identity. -/
def statusEvent : MessageEvent :=
  ⟨⟨"MSG1", ⟨"status", "broadcast"⟩, ⟨"15551234", "s.whatsapp.net"⟩, 100,
      false⟩,
    ⟨some "hello", none, none, none⟩⟩

/-- Claim C1 (code bug): for the status-broadcast event above, the guard
does suppress every forwarder call, but the store nevertheless gains a
Chat row and a Message row, because handleMessage runs before the guard;
the comment in the source (do not save status messages) documents the
opposite intent. -/
theorem status_event_stored_despite_guard :
    (onMessageEvent ⟨fun _ => "Status Chat", true, true⟩ statusEvent
        emptyStore).2 = [] ∧
    (onMessageEvent ⟨fun _ => "Status Chat", true, true⟩ statusEvent
        emptyStore).1.messages =
      [⟨"MSG1", "status@broadcast", "15551234", "hello", 100, false⟩] ∧
    (onMessageEvent ⟨fun _ => "Status Chat", true, true⟩ statusEvent
        emptyStore).1.chats =
      [⟨"status@broadcast", "Status Chat", 100⟩] :=
  ⟨rfl, rfl, rfl⟩

/-- The Key of a historical WebMessageInfo: optional FromMe flag,
participant and message id. -/
structure HistMsgKey where
  fromMe : Option Bool
  participant : Option String
  id : Option String
deriving Repr, DecidableEq

/-- A historical WebMessageInfo as read by handleHistorySync: the inner
proto message, the MessageTimestamp (0 when absent), and the Key. A nil
HistorySyncMsg wrapper or a nil WebMessageInfo inside it are both
observed through the same nil check, modelled as the none case of
Option WebMessageInfo at use sites. -/
structure WebMessageInfo where
  message : Option WAMessage
  messageTimestamp : Nat
  key : Option HistMsgKey
deriving Repr, DecidableEq

/-- One conversation of a history-sync payload: optional ID, the metadata
object later handed to GetChatName, and the message list (newest
first). -/
structure Conversation where
  id : Option String
  meta : Option ConvMeta
  messages : List (Option WebMessageInfo)
deriving Repr, DecidableEq

/-- Collaborators of handleHistorySync: types.ParseJID, the chat-name
resolution (read-only on the store), and the local account user id. -/
structure HistEnv where
  parse : String → Option JID
  resolveName : String → Option ConvMeta → String
  localUser : String

/-- Sender resolution for one historical message: explicit FromMe flag,
else a non-empty participant, else the local account for own messages,
else the raw chat user. Returns the sender and the FromMe flag. -/
def histSender (localUser jidUser : String) (wmi : WebMessageInfo) :
    String × Bool :=
  match wmi.key with
  | some k =>
    let isFromMe := k.fromMe.getD false
    if !isFromMe && (k.participant.getD "" != "") then
      (k.participant.getD "", isFromMe)
    else if isFromMe then (localUser, isFromMe)
    else (jidUser, isFromMe)
  | none => (jidUser, false)

/-- Message id taken from the Key of a historical message, empty when
absent. -/
def histMsgID (wmi : WebMessageInfo) : String :=
  match wmi.key with
  | some k => k.id.getD ""
  | none => ""

/-- Body of the inner message loop of handleHistorySync: skip nil
wrappers, skip empty text content, skip messages without a usable
timestamp, otherwise upsert the message row and count it. -/
def storeHistMessage (env : HistEnv) (chatJID jidUser : String)
    (acc : StoreState × Nat) (m : Option WebMessageInfo) : StoreState × Nat :=
  match m with
  | none => acc
  | some wmi =>
    let content := extractTextContent wmi.message
    if content = "" then acc
    else
      let sp := histSender env.localUser jidUser wmi
      let msgID := histMsgID wmi
      if wmi.messageTimestamp = 0 then acc
      else
        ((StoreMessage acc.1 msgID chatJID sp.1 content wmi.messageTimestamp
            sp.2 true).1, acc.2 + 1)

/-- Body of the conversation loop of handleHistorySync: skip a nil ID or
an unparsable JID, resolve the chat name, and only when the first
(latest) message exists and carries a usable timestamp upsert the chat
row and walk the message list. Returns the new store and the number of
messages stored for this conversation. -/
def processConversation (env : HistEnv) (conv : Conversation)
    (st : StoreState) : StoreState × Nat :=
  match conv.id with
  | none => (st, 0)
  | some chatJID =>
    match env.parse chatJID with
    | none => (st, 0)
    | some jid =>
      let name := env.resolveName chatJID conv.meta
      match conv.messages with
      | [] => (st, 0)
      | latest :: _ =>
        match latest with
        | none => (st, 0)
        | some lwmi =>
          if lwmi.messageTimestamp = 0 then (st, 0)
          else
            let st1 := (StoreChat st chatJID name lwmi.messageTimestamp
              true).1
            conv.messages.foldl (storeHistMessage env chatJID jid.user)
              (st1, 0)

/-- handleHistorySync from main.go: fold the conversation loop over the
payload, accumulating the synced-message count. -/
def handleHistorySync (env : HistEnv) (convs : List Conversation)
    (st : StoreState) : StoreState × Nat :=
  convs.foldl
    (fun acc c =>
      let r := processConversation env c acc.1
      (r.1, acc.2 + r.2)) (st, 0)

/-- Whether the first (latest) message of a conversation is missing or
carries no usable timestamp: empty list, nil wrapper, or timestamp 0. -/
def firstMessageUnusable (conv : Conversation) : Bool :=
  match conv.messages with
  | [] => true
  | none :: _ => true
  | some wmi :: _ => wmi.messageTimestamp == 0

/-- Claim C9: when the first (latest) message of a conversation is
missing or has no usable timestamp, the whole conversation is skipped:
its processing leaves the store unchanged and stores no messages, and
removing it from a history-sync payload does not change the outcome,
even when later messages of that conversation carry usable timestamps. -/
theorem historySync_skips_conversation (env : HistEnv) (conv : Conversation)
    (h : firstMessageUnusable conv = true) :
    (∀ st, processConversation env conv st = (st, 0)) ∧
    ∀ (pre post : List Conversation) (st : StoreState),
      handleHistorySync env (pre ++ conv :: post) st =
        handleHistorySync env (pre ++ post) st := by
  obtain ⟨cid, meta, msgs⟩ := conv
  have hskip : ∀ st, processConversation env ⟨cid, meta, msgs⟩ st = (st, 0) := by
    intro st
    cases cid with
    | none => rfl
    | some chatJID =>
      cases hp : env.parse chatJID with
      | none => simp [processConversation, hp]
      | some jid =>
        cases msgs with
        | nil => simp [processConversation, hp]
        | cons m rest =>
          cases m with
          | none => simp [processConversation, hp]
          | some wmi =>
            have hts : wmi.messageTimestamp = 0 := by
              simpa [firstMessageUnusable] using h
            simp [processConversation, hp, hts]
  refine ⟨hskip, fun pre post st => ?_⟩
  simp only [handleHistorySync, List.foldl_append, List.foldl_cons]
  congr 1
  simp [hskip]

/-- A concrete environment for the history-sync witness. -/
def exHistEnv : HistEnv :=
  ⟨fun s => if s = "123@g.us" then some ⟨"123", "g.us"⟩ else none,
    fun _ _ => "Group 123", "me"⟩

/-- A conversation whose latest message has timestamp 0 while a later
message carries a usable timestamp. -/
def exConv : Conversation :=
  ⟨some "123@g.us", none,
    [some ⟨some ⟨some "latest text", none, none, none⟩, 0,
        some ⟨some false, some "p1", some "id1"⟩⟩,
      some ⟨some ⟨some "older text", none, none, none⟩, 5,
        some ⟨some false, some "p2", some "id2"⟩⟩]⟩

/-- Witness for C9: the conversation above is skipped entirely on the
empty store. -/
theorem historySync_skips_conversation_witness :
    firstMessageUnusable exConv = true ∧
    processConversation exHistEnv exConv emptyStore = (emptyStore, 0) :=
  ⟨rfl, (historySync_skips_conversation exHistEnv exConv rfl).1 emptyStore⟩
